import Mathlib

/-!
Verification development for the CrewAI multi-destination trip planner.

The repository has two entry points:
* `main.py` — `TripDetails` (dataclass), `MultiDestinationTripPlanner`
  (five CrewAI agents, five tasks, sequential `Crew.kickoff`), and a plan
  dictionary echoing the request plus the crew output.
* `test.py` — the same `TripDetails`/planner skeleton plus four HTTP data
  gateway functions (flights, hotels, activities, weather) whose results
  are merged into the returned plan dictionary.

Python runtime behaviour is embedded shallowly: exceptions become
`Except PyErr`, the HTTP layer becomes an explicit function from requests
to responses, and the CrewAI sequential kickoff becomes a fold over the
task list in declaration order.
-/

/-- Python exception values that the modelled code can raise:
`ValueError` (raised by `TripDetails.validate`), `TypeError` (raised by a
mixed `str`/`int` comparison), a raw `requests` transport exception, and a
`GatewayError (provider, cause)` variant that exists only so the spec's
claimed wrapping behaviour can be compared with the code's. -/
inductive PyErr where
  | valueError (msg : String)
  | typeError (msg : String)
  | requestsError (cause : String)
  | gatewayError (provider : String) (cause : String)
deriving DecidableEq, Repr

/-- The `travel_dates` dict of `TripDetails`; the code reads exactly the
keys `start_date` and `end_date` (`test.py` lines 55-56, 70-71). -/
structure TravelDates where
  start_date : String
  end_date : String
deriving DecidableEq, Repr

/-- The `TripDetails` dataclass (`main.py` lines 14-28, `test.py` lines
16-30).  `main.py` annotates the budgets as `str` while `test.py` and both
`main()` drivers use `int`; this structure models the integer-budget
runtime values, and `TripDetailsPy` below models the dynamically typed
budgets for the annotation question. -/
structure TripDetails where
  from_destination : String
  to_destination : String
  budget_min : Int
  budget_max : Int
  interests : List String
  travel_style : String
  group_size : Int
  travel_dates : TravelDates
  dietary_restrictions : Option (List String) := none
  accessibility_needs : Option (List String) := none
deriving DecidableEq, Repr

/-- The body of `TripDetails.validate` (`main.py` lines 30-45, `test.py`
lines 32-46): four checks in source order, raising `ValueError` with the
source's message at the first failing check. -/
def TripDetails.validate (td : TripDetails) : Except PyErr Unit :=
  if td.budget_min ≤ 0 ∨ td.budget_max ≤ 0 then
    Except.error (PyErr.valueError "Budget must be positive")
  else if td.budget_min > td.budget_max then
    Except.error (PyErr.valueError "Minimum budget cannot exceed maximum budget")
  else if td.group_size ≤ 0 then
    Except.error (PyErr.valueError "Group size must be positive")
  else if td.from_destination = td.to_destination then
    Except.error (PyErr.valueError "Origin and destination cannot be the same")
  else
    Except.ok ()

/-- Modelled from the spec: the spec's `TripRequest` constructor, which
validates at construction time ("validation occurs exactly once at
construction and fails fast").  The source's dataclass constructor is the
plain structure constructor `TripDetails.mk`, which performs no
validation; this definition exists to compare the two behaviours. -/
def constructTripRequestSpec (from_destination to_destination : String)
    (budget_min budget_max : Int) (interests : List String)
    (travel_style : String) (group_size : Int) (travel_dates : TravelDates)
    (dietary_restrictions accessibility_needs : Option (List String)) :
    Except PyErr TripDetails :=
  let td : TripDetails :=
    { from_destination := from_destination
      to_destination := to_destination
      budget_min := budget_min
      budget_max := budget_max
      interests := interests
      travel_style := travel_style
      group_size := group_size
      travel_dates := travel_dates
      dietary_restrictions := dietary_restrictions
      accessibility_needs := accessibility_needs }
  match td.validate with
  | Except.error e => Except.error e
  | Except.ok _ => Except.ok td

/-- A provider payload, the value of `response.json()`.  The claims never
inspect payload internals, so payloads are abstracted to: a null/absent
value, an empty result set, or opaque data. -/
inductive Json where
  | null
  | emptyResultSet
  | data (raw : String)
deriving DecidableEq, Repr

/-- An outbound HTTP request as assembled by the gateway functions in
`test.py`: URL, query parameters in construction order, headers. -/
structure HttpRequest where
  url : String
  params : List (String × String)
  headers : List (String × String)
deriving DecidableEq, Repr

/-- The HTTP layer (`requests.get(...).json()`): maps a request to a
payload or to a raised transport exception. -/
def HttpLayer : Type := HttpRequest → Except PyErr Json

/-- The request assembled by `get_flight_options` (`test.py` lines
49-61): origin, destination, both travel dates, and party size. -/
def flightRequest (from_destination to_destination : String)
    (travel_dates : TravelDates) (group_size : Int) : HttpRequest :=
  { url := "https://api.amadeus.com/v1/shopping/flight-offers"
    params := [("originLocationCode", from_destination),
               ("destinationLocationCode", to_destination),
               ("departureDate", travel_dates.start_date),
               ("returnDate", travel_dates.end_date),
               ("adults", toString group_size)]
    headers := [("apikey", "fceb897cb1f5e1b951b463c01f1d7937")] }

/-- The budget dict passed to `get_hotel_options` (`test.py` lines
195-198). -/
structure BudgetRange where
  min : Int
  max : Int
deriving DecidableEq, Repr

/-- The request assembled by `get_hotel_options` (`test.py` lines
65-79). -/
def hotelRequest (destination : String) (travel_dates : TravelDates)
    (budget_range : BudgetRange) (group_size : Int) : HttpRequest :=
  { url := "https://hotels-com-free.p.rapidapi.com/v1/search"
    params := [("query", destination),
               ("checkin_date", travel_dates.start_date),
               ("checkout_date", travel_dates.end_date),
               ("adults", toString group_size),
               ("price_min", toString budget_range.min),
               ("price_max", toString budget_range.max)]
    headers := [("X-RapidAPI-Key", "3ff7877a8fmsha1bc83c54feab8ap13616djsn94ac3deec2bc"),
                ("X-RapidAPI-Host", "tripadvisor16.p.rapidapi.com")] }

/-- The request assembled by `get_local_activities` (`test.py` lines
83-91). -/
def activitiesRequest (destination : String) (interests : List String) :
    HttpRequest :=
  { url := "https://api.geoapify.com/v2/places"
    params := [("query", destination),
               ("categories", String.intercalate "," interests)]
    headers := [("apikey", "1b33c270eae94618aafaed17fbba29ef")] }

set_option linter.unusedVariables false in
/-- The request assembled by `get_weather_forecast` (`test.py` lines
94-102).  The function receives `travel_dates` but the outgoing query uses
only the destination plus the fixed `units`/`appid` parameters. -/
def weatherRequest (destination : String) (travel_dates : TravelDates) :
    HttpRequest :=
  { url := "https://api.openweathermap.org/data/2.5/forecast"
    params := [("q", destination),
               ("units", "metric"),
               ("appid", "fb8ee50b6fbc6fc967e6211f6f5406cb")]
    headers := [] }

/-- `get_flight_options` (`test.py` lines 49-63): build the request, call
the HTTP layer, return `response.json()` unchanged; a transport exception
propagates unchanged. -/
def get_flight_options (http : HttpLayer) (from_destination to_destination : String)
    (travel_dates : TravelDates) (group_size : Int) : Except PyErr Json :=
  http (flightRequest from_destination to_destination travel_dates group_size)

/-- `get_hotel_options` (`test.py` lines 65-81). -/
def get_hotel_options (http : HttpLayer) (destination : String)
    (travel_dates : TravelDates) (budget_range : BudgetRange)
    (group_size : Int) : Except PyErr Json :=
  http (hotelRequest destination travel_dates budget_range group_size)

/-- `get_local_activities` (`test.py` lines 83-92). -/
def get_local_activities (http : HttpLayer) (destination : String)
    (interests : List String) : Except PyErr Json :=
  http (activitiesRequest destination interests)

/-- `get_weather_forecast` (`test.py` lines 94-103). -/
def get_weather_forecast (http : HttpLayer) (destination : String)
    (travel_dates : TravelDates) : Except PyErr Json :=
  http (weatherRequest destination travel_dates)

/-- Recognizes a result that raised the spec's `GatewayError`. -/
def isGatewayErrorResult : Except PyErr Json → Bool
  | Except.error (PyErr.gatewayError _ _) => true
  | _ => false

/-- Which external call a run step performs, for counting the calls a run
makes: one of the four gateway fetches or one capability (agent/LLM task)
invocation. -/
inductive CallEvent where
  | flightsGateway
  | hotelsGateway
  | activitiesGateway
  | weatherGateway
  | capability (stage : Nat)
deriving DecidableEq, Repr

/-- The plan dictionary returned by `test.py`'s
`generate_comprehensive_trip_plan` (lines 211-224). -/
structure TestTripPlan where
  origin : String
  destination : String
  budget_range : BudgetRange
  travel_dates : TravelDates
  flights : Json
  hotels : Json
  activities : Json
  weather_forecast : Json
  trip_details : TripDetails
deriving DecidableEq, Repr

/-- `test.py`'s `MultiDestinationTripPlanner.generate_comprehensive_trip_plan`
(lines 184-224): the four gateway calls happen in source order with no
exception handler, so the first transport exception propagates to the
caller; otherwise the plan dictionary is built from the request fields and
the four payloads.  The second component records the external calls that
were actually made. -/
def generate_comprehensive_trip_plan (td : TripDetails) (http : HttpLayer) :
    Except PyErr TestTripPlan × List CallEvent :=
  match get_flight_options http td.from_destination td.to_destination
      td.travel_dates td.group_size with
  | Except.error e => (Except.error e, [CallEvent.flightsGateway])
  | Except.ok flight_options =>
    match get_hotel_options http td.to_destination td.travel_dates
        { min := td.budget_min, max := td.budget_max } td.group_size with
    | Except.error e =>
      (Except.error e, [CallEvent.flightsGateway, CallEvent.hotelsGateway])
    | Except.ok hotel_options =>
      match get_local_activities http td.to_destination td.interests with
      | Except.error e =>
        (Except.error e,
         [CallEvent.flightsGateway, CallEvent.hotelsGateway,
          CallEvent.activitiesGateway])
      | Except.ok local_activities =>
        match get_weather_forecast http td.to_destination td.travel_dates with
        | Except.error e =>
          (Except.error e,
           [CallEvent.flightsGateway, CallEvent.hotelsGateway,
            CallEvent.activitiesGateway, CallEvent.weatherGateway])
        | Except.ok weather_forecast =>
          (Except.ok
            { origin := td.from_destination
              destination := td.to_destination
              budget_range := { min := td.budget_min, max := td.budget_max }
              travel_dates := td.travel_dates
              flights := flight_options
              hotels := hotel_options
              activities := local_activities
              weather_forecast := weather_forecast
              trip_details := td },
           [CallEvent.flightsGateway, CallEvent.hotelsGateway,
            CallEvent.activitiesGateway, CallEvent.weatherGateway])

/-- A full `test.py` run: `MultiDestinationTripPlanner.__init__` (lines
106-127) calls `trip_details.validate()` before anything else, so a
`ValueError` escapes before any external call; otherwise the plan is
generated.  Components: outcome, external calls made, and the planner's
`trip_details` after the run (the source never assigns to it, so every
step threads it through unchanged). -/
def runTest (td : TripDetails) (http : HttpLayer) :
    Except PyErr TestTripPlan × List CallEvent × TripDetails :=
  match td.validate with
  | Except.error e => (Except.error e, [], td)
  | Except.ok _ =>
    ((generate_comprehensive_trip_plan td http).1,
     (generate_comprehensive_trip_plan td http).2, td)

/-- The five pipeline stages.  Constructor order follows the agents
created in `MultiDestinationTripPlanner.__init__` (`main.py` lines
70-74). -/
inductive StageId where
  | routeAnalysis
  | travelLogistics
  | destinationResearch
  | itineraryConstruction
  | experiencePersonalization
deriving DecidableEq, Repr

/-- The task list handed to `Crew` (`main.py` lines 214-220):
route analysis, logistics, research, itinerary, personalization, in that
order.  CrewAI's default process executes the tasks sequentially in list
order, so this list is also the execution order of `crew.kickoff()`. -/
def crewTasks : List StageId :=
  [StageId.routeAnalysis, StageId.travelLogistics,
   StageId.destinationResearch, StageId.itineraryConstruction,
   StageId.experiencePersonalization]

/-- Modelled from the spec: the declared upstream dependencies of each
stage.  The source encodes only the linear task list above (no explicit
dependency edges), so the dependency graph itself exists only in the
spec: Route Analysis and Destination Research depend only on the request,
Travel Logistics on Route Analysis, Itinerary Construction on the three
before it, Experience Personalization on Itinerary Construction. -/
def stageDeps : StageId → List StageId
  | StageId.routeAnalysis => []
  | StageId.travelLogistics => [StageId.routeAnalysis]
  | StageId.destinationResearch => []
  | StageId.itineraryConstruction =>
      [StageId.routeAnalysis, StageId.travelLogistics,
       StageId.destinationResearch]
  | StageId.experiencePersonalization => [StageId.itineraryConstruction]

/-- Sequential execution respects the declared dependency graph: when the
stage at position `k` of the crew's task list starts, every declared
upstream dependency of that stage is among the stages already completed
(the first `k` tasks of the list). -/
def executionRespectsDeps : Prop :=
  ∀ k : Fin crewTasks.length, ∀ d ∈ stageDeps (crewTasks.get k),
    d ∈ crewTasks.take k.val

/-- The plan dictionary returned by `main.py`'s
`generate_comprehensive_trip_plan` (lines 227-237). -/
structure MainTripPlan where
  origin : String
  destination : String
  budget_range : BudgetRange
  travel_dates : TravelDates
  comprehensive_trip_plan : String
  trip_details : TripDetails
deriving DecidableEq, Repr

/-- `main.py`'s `MultiDestinationTripPlanner.generate_comprehensive_trip_plan`
(lines 131-237): the five tasks are executed by `crew.kickoff()` (one
capability invocation per task, sequentially, in task-list order) and the
returned dictionary echoes the request fields next to `str(result)`.
`crewResult` stands for the text the external generative capability
produced. -/
def generate_comprehensive_trip_plan_main (td : TripDetails)
    (crewResult : String) : MainTripPlan :=
  { origin := td.from_destination
    destination := td.to_destination
    budget_range := { min := td.budget_min, max := td.budget_max }
    travel_dates := td.travel_dates
    comprehensive_trip_plan := crewResult
    trip_details := td }

/-- A full `main.py` run: `MultiDestinationTripPlanner.__init__` (lines
49-74) calls `trip_details.validate()` first, so a `ValueError` escapes
before any agent is built or any task runs; otherwise `crew.kickoff()`
invokes the capability once per task in list order and the plan
dictionary is returned.  Components: outcome, external calls made, and
the planner's `trip_details` after the run (never assigned to by the
source). -/
def runMain (td : TripDetails) (crewResult : String) :
    Except PyErr MainTripPlan × List CallEvent × TripDetails :=
  match td.validate with
  | Except.error e => (Except.error e, [], td)
  | Except.ok _ =>
    (Except.ok (generate_comprehensive_trip_plan_main td crewResult),
     (List.range crewTasks.length).map CallEvent.capability,
     td)

/-- A dynamically typed budget value, as `main.py` line 21-22 permits: the
dataclass annotates `budget_min`/`budget_max` as `str`, while the driver
passes `int`s, so at runtime either may hold. -/
inductive PyVal where
  | int (n : Int)
  | str (s : String)
deriving DecidableEq, Repr

/-- Python's `<=` on the budget values: defined within one type,
`TypeError` across types (as `"5000" <= 0` raises at runtime). -/
def pyLe : PyVal → PyVal → Except PyErr Bool
  | PyVal.int a, PyVal.int b => Except.ok (decide (a ≤ b))
  | PyVal.str a, PyVal.str b => Except.ok (decide (a ≤ b))
  | PyVal.str _, PyVal.int _ =>
      Except.error (PyErr.typeError
        "'<=' not supported between instances of 'str' and 'int'")
  | PyVal.int _, PyVal.str _ =>
      Except.error (PyErr.typeError
        "'<=' not supported between instances of 'int' and 'str'")

/-- Python's `>` on the budget values. -/
def pyGt : PyVal → PyVal → Except PyErr Bool
  | PyVal.int a, PyVal.int b => Except.ok (decide (b < a))
  | PyVal.str a, PyVal.str b => Except.ok (decide (b < a))
  | PyVal.str _, PyVal.int _ =>
      Except.error (PyErr.typeError
        "'>' not supported between instances of 'str' and 'int'")
  | PyVal.int _, PyVal.str _ =>
      Except.error (PyErr.typeError
        "'>' not supported between instances of 'int' and 'str'")

/-- `main.py`'s `TripDetails` with the budget fields kept dynamically
typed, to model `validate()` exactly as Python executes it when a budget
is a string. -/
structure TripDetailsPy where
  from_destination : String
  to_destination : String
  budget_min : PyVal
  budget_max : PyVal
  group_size : Int
deriving DecidableEq, Repr

/-- `TripDetails.validate` (`main.py` lines 30-45) over dynamically typed
budgets.  `if self.budget_min <= 0 or self.budget_max <= 0` evaluates the
left comparison first and, by short-circuit, evaluates the right one only
when the left is `False`; a `TypeError` from either comparison
propagates. -/
def TripDetailsPy.validate (td : TripDetailsPy) : Except PyErr Unit :=
  match pyLe td.budget_min (PyVal.int 0) with
  | Except.error e => Except.error e
  | Except.ok leftLow =>
    match (if leftLow then Except.ok true else pyLe td.budget_max (PyVal.int 0)) with
    | Except.error e => Except.error e
    | Except.ok anyLow =>
      if anyLow then
        Except.error (PyErr.valueError "Budget must be positive")
      else
        match pyGt td.budget_min td.budget_max with
        | Except.error e => Except.error e
        | Except.ok misordered =>
          if misordered then
            Except.error (PyErr.valueError
              "Minimum budget cannot exceed maximum budget")
          else if td.group_size ≤ 0 then
            Except.error (PyErr.valueError "Group size must be positive")
          else if td.from_destination = td.to_destination then
            Except.error (PyErr.valueError
              "Origin and destination cannot be the same")
          else
            Except.ok ()

/-- The example request built by `test.py`'s `main()` (lines 228-242). -/
def tdTokyo : TripDetails :=
  { from_destination := "New York, USA"
    to_destination := "Tokyo, Japan"
    budget_min := 3000
    budget_max := 6000
    interests := ["technology", "culture", "food"]
    travel_style := "immersive"
    group_size := 2
    travel_dates := { start_date := "2024-09-15", end_date := "2024-09-25" }
    dietary_restrictions := some ["vegetarian"]
    accessibility_needs := some ["minimal walking"] }

/-- The end-to-end scenario request of the spec: origin Hyderabad,
destination Pondicherry, budget 5000-7000, party 11, dates
2024-12-22 to 2024-12-25, interests Beach and Historical. -/
def tdScenario : TripDetails :=
  { from_destination := "Hyderabad"
    to_destination := "Pondicherry"
    budget_min := 5000
    budget_max := 7000
    interests := ["Beach", "Historical"]
    travel_style := "Adventure"
    group_size := 11
    travel_dates := { start_date := "2024-12-22", end_date := "2024-12-25" }
    dietary_restrictions := none
    accessibility_needs := none }

/-- A request whose budgets are misordered (7000 > 5000), otherwise like
the `main.py` example. -/
def tdMisordered : TripDetails :=
  { from_destination := "Hyderabad, India"
    to_destination := "Pondicherry, India"
    budget_min := 7000
    budget_max := 5000
    interests := ["Beach"]
    travel_style := "Adventure"
    group_size := 11
    travel_dates := { start_date := "2024-12-22", end_date := "2024-12-25" }
    dietary_restrictions := none
    accessibility_needs := none }

/-- A request violating only the origin-equals-destination constraint. -/
def tdSameCity : TripDetails :=
  { from_destination := "Chennai, India"
    to_destination := "Chennai, India"
    budget_min := 100
    budget_max := 200
    interests := []
    travel_style := "Relaxed"
    group_size := 2
    travel_dates := { start_date := "2024-12-22", end_date := "2024-12-25" }
    dietary_restrictions := none
    accessibility_needs := none }

/-- A request violating both the budget positivity constraint
(`budget_min = 0`) and the origin-equals-destination constraint. -/
def tdSameZeroBudget : TripDetails :=
  { from_destination := "Chennai, India"
    to_destination := "Chennai, India"
    budget_min := 0
    budget_max := 5000
    interests := []
    travel_style := "Relaxed"
    group_size := 2
    travel_dates := { start_date := "2024-12-22", end_date := "2024-12-25" }
    dietary_restrictions := none
    accessibility_needs := none }

/-- An HTTP layer in which every provider responds with data. -/
def httpOk : HttpLayer := fun _ => Except.ok (Json.data "payload")

/-- An HTTP layer in which exactly the lodging provider is down: a request
to the hotels URL raises a transport exception, every other provider
responds with data. -/
def httpHotelDown : HttpLayer := fun r =>
  if r.url = "https://hotels-com-free.p.rapidapi.com/v1/search" then
    Except.error (PyErr.requestsError "ConnectionError")
  else
    Except.ok (Json.data "payload")

/-- An HTTP layer in which every provider raises a transport exception. -/
def httpAllDown : HttpLayer :=
  fun _ => Except.error (PyErr.requestsError "ConnectionError")

/-- An HTTP layer in which every provider responds with an empty result
set. -/
def httpEmptyAll : HttpLayer := fun _ => Except.ok Json.emptyResultSet

/-- A dynamically typed request whose budgets are both strings, as the
`main.py` field annotations declare. -/
def tdPyStringBudget : TripDetailsPy :=
  { from_destination := "Hyderabad, India"
    to_destination := "Pondicherry, India"
    budget_min := PyVal.str "5000"
    budget_max := PyVal.str "7000"
    group_size := 11 }

/-- A dynamically typed request with `budget_min = 0` (an int) and a
string `budget_max`. -/
def tdPyMixed : TripDetailsPy :=
  { from_destination := "Hyderabad, India"
    to_destination := "Pondicherry, India"
    budget_min := PyVal.int 0
    budget_max := PyVal.str "5000"
    group_size := 11 }

/-- C1: the five canonical stages execute in topological order of the
declared dependency graph — with the crew's sequential execution in
task-list order, every declared upstream dependency of the stage at
position k is among the stages already completed (the first k tasks), so
no stage is invoked before all of its declared dependencies have
completed. -/
theorem stages_execute_in_topological_order : executionRespectsDeps := by
  unfold executionRespectsDeps
  decide

/-- C2 counterexample: with the lodging provider down, a full `test.py`
run does not complete — the raw transport exception escapes
`generate_comprehensive_trip_plan` to the caller instead of the run
succeeding with a null lodging payload (the code has no `tolerate`
fail-policy and no exception handler around the gateway calls). -/
theorem lodging_failure_not_tolerated_cex :
    (runTest tdTokyo httpHotelDown).1 =
      Except.error (PyErr.requestsError "ConnectionError") := by
  rfl

/-- C2 amended: when the lodging gateway call fails (and the flight call
before it succeeded), `generate_comprehensive_trip_plan` propagates the
lodging failure unchanged to the caller and produces no TripPlan. -/
theorem lodging_failure_propagates (td : TripDetails) (http : HttpLayer)
    (j : Json) (e : PyErr)
    (hflight : http (flightRequest td.from_destination td.to_destination
      td.travel_dates td.group_size) = Except.ok j)
    (hhotel : http (hotelRequest td.to_destination td.travel_dates
      { min := td.budget_min, max := td.budget_max } td.group_size) =
      Except.error e) :
    (generate_comprehensive_trip_plan td http).1 = Except.error e := by
  simp [generate_comprehensive_trip_plan, get_flight_options,
    get_hotel_options, hflight, hhotel]

/-- C2 witness: `lodging_failure_propagates` applied to the `test.py`
example request and the layer with only the lodging provider down. -/
theorem lodging_failure_propagates_witness :
    (generate_comprehensive_trip_plan tdTokyo httpHotelDown).1 =
      Except.error (PyErr.requestsError "ConnectionError") :=
  lodging_failure_propagates tdTokyo httpHotelDown (Json.data "payload")
    (PyErr.requestsError "ConnectionError") (by rfl) (by rfl)

/-- C3 counterexample: a request with identical origin and destination
whose `budget_min` is 0 fails validation citing budget positivity, not
identical origin/destination — the checks run in source order, so the
origin/destination message is only reachable when every earlier check
passed. -/
theorem validate_first_constraint_cex :
    tdSameZeroBudget.from_destination = tdSameZeroBudget.to_destination ∧
    tdSameZeroBudget.validate =
      Except.error (PyErr.valueError "Budget must be positive") ∧
    PyErr.valueError "Budget must be positive" ≠
      PyErr.valueError "Origin and destination cannot be the same" := by
  refine ⟨rfl, rfl, by decide⟩

/-- C3 amended: `validate()` reports the first violated constraint in
check order (budget positivity, budget ordering, party size,
origin/destination).  When both budgets are positive, a misordered budget
fails citing budget ordering; when additionally the budgets are ordered
and the party size is positive, identical origin and destination fails
citing identical origin/destination. -/
theorem validate_reports_first_violated_constraint (td : TripDetails)
    (hmin : 0 < td.budget_min) (hmax : 0 < td.budget_max) :
    (td.budget_min > td.budget_max →
      td.validate = Except.error
        (PyErr.valueError "Minimum budget cannot exceed maximum budget")) ∧
    (td.budget_min ≤ td.budget_max → 0 < td.group_size →
      td.from_destination = td.to_destination →
      td.validate = Except.error
        (PyErr.valueError "Origin and destination cannot be the same")) := by
  refine ⟨fun h => ?_, fun h1 h2 h3 => ?_⟩
  · unfold TripDetails.validate
    rw [if_neg (by omega), if_pos h]
  · unfold TripDetails.validate
    rw [if_neg (by omega), if_neg (by omega), if_neg (by omega), if_pos h3]

/-- C3 witness: `validate_reports_first_violated_constraint` applied to a
request violating only the origin/destination constraint. -/
theorem validate_reports_first_violated_constraint_witness :
    0 < tdSameCity.budget_min ∧ 0 < tdSameCity.budget_max ∧
    tdSameCity.validate = Except.error
      (PyErr.valueError "Origin and destination cannot be the same") :=
  ⟨by decide, by decide,
    (validate_reports_first_violated_constraint tdSameCity (by decide)
      (by decide)).2 (by decide) (by decide) rfl⟩

/-- C4 counterexample: the dataclass constructor performs no validation —
a `TripDetails` whose budgets are misordered is constructed successfully
and its fields are fully usable, while the spec's validating constructor
would have rejected the same field values at construction time.  The
error surfaces only when `validate()` is called explicitly. -/
theorem construction_does_not_validate_cex :
    tdMisordered.budget_min = 7000 ∧ tdMisordered.budget_max = 5000 ∧
    constructTripRequestSpec "Hyderabad, India" "Pondicherry, India"
      7000 5000 ["Beach"] "Adventure" 11
      { start_date := "2024-12-22", end_date := "2024-12-25" } none none =
      Except.error
        (PyErr.valueError "Minimum budget cannot exceed maximum budget") :=
  ⟨rfl, rfl, rfl⟩

/-- C4 amended: construction never validates — the dataclass constructor
accepts any field values, producing an object whose violating fields are
readable, and the descriptive error appears only from the explicit
`validate()` call (which the planner's `__init__` performs). -/
theorem validation_only_on_explicit_call (f t : String) (mn mx : Int)
    (ints : List String) (style : String) (gs : Int) (dates : TravelDates)
    (diet acc : Option (List String)) (h : mn > mx) :
    (TripDetails.mk f t mn mx ints style gs dates diet acc).budget_min = mn ∧
    (TripDetails.mk f t mn mx ints style gs dates diet acc).budget_max = mx ∧
    ∃ m, (TripDetails.mk f t mn mx ints style gs dates diet acc).validate =
      Except.error (PyErr.valueError m) := by
  refine ⟨rfl, rfl, ?_⟩
  unfold TripDetails.validate
  by_cases h1 : mn ≤ 0 ∨ mx ≤ 0
  · exact ⟨"Budget must be positive", if_pos h1⟩
  · exact ⟨"Minimum budget cannot exceed maximum budget",
      (if_neg h1).trans (if_pos h)⟩

/-- C4 witness: `validation_only_on_explicit_call` applied to the
misordered-budget field values. -/
theorem validation_only_on_explicit_call_witness :
    (7000 : Int) > 5000 ∧
    ((TripDetails.mk "Hyderabad, India" "Pondicherry, India" 7000 5000
        ["Beach"] "Adventure" 11
        { start_date := "2024-12-22", end_date := "2024-12-25" }
        none none).budget_min = 7000 ∧
     (TripDetails.mk "Hyderabad, India" "Pondicherry, India" 7000 5000
        ["Beach"] "Adventure" 11
        { start_date := "2024-12-22", end_date := "2024-12-25" }
        none none).budget_max = 5000 ∧
     ∃ m, (TripDetails.mk "Hyderabad, India" "Pondicherry, India" 7000 5000
        ["Beach"] "Adventure" 11
        { start_date := "2024-12-22", end_date := "2024-12-25" }
        none none).validate = Except.error (PyErr.valueError m)) :=
  ⟨by decide,
    validation_only_on_explicit_call "Hyderabad, India" "Pondicherry, India"
      7000 5000 ["Beach"] "Adventure" 11
      { start_date := "2024-12-22", end_date := "2024-12-25" }
      none none (by decide)⟩

/-- C5: a request with `budget_min > budget_max` aborts the run inside
the planner constructor: both the `test.py` run and the `main.py` run
surface a `ValueError` and make zero gateway calls and zero capability
calls. -/
theorem misordered_budget_aborts_run_before_any_call
    (td : TripDetails) (http : HttpLayer) (crewResult : String)
    (h : td.budget_min > td.budget_max) :
    (∃ m, (runTest td http).1 = Except.error (PyErr.valueError m)) ∧
    (runTest td http).2.1 = [] ∧
    (∃ m, (runMain td crewResult).1 = Except.error (PyErr.valueError m)) ∧
    (runMain td crewResult).2.1 = [] := by
  have hv : ∃ m, td.validate = Except.error (PyErr.valueError m) := by
    unfold TripDetails.validate
    by_cases h1 : td.budget_min ≤ 0 ∨ td.budget_max ≤ 0
    · exact ⟨"Budget must be positive", if_pos h1⟩
    · exact ⟨"Minimum budget cannot exceed maximum budget",
        (if_neg h1).trans (if_pos h)⟩
  obtain ⟨m, hm⟩ := hv
  refine ⟨⟨m, ?_⟩, ?_, ⟨m, ?_⟩, ?_⟩ <;> simp [runTest, runMain, hm]

/-- C5 witness: `misordered_budget_aborts_run_before_any_call` applied to
the misordered-budget request. -/
theorem misordered_budget_aborts_run_before_any_call_witness :
    tdMisordered.budget_min > tdMisordered.budget_max ∧
    ((∃ m, (runTest tdMisordered httpOk).1 =
        Except.error (PyErr.valueError m)) ∧
     (runTest tdMisordered httpOk).2.1 = [] ∧
     (∃ m, (runMain tdMisordered "plan").1 =
        Except.error (PyErr.valueError m)) ∧
     (runMain tdMisordered "plan").2.1 = []) :=
  ⟨by decide,
    misordered_budget_aborts_run_before_any_call tdMisordered httpOk "plan"
      (by decide)⟩

/-- C6: a successful `main.py` run returns a plan echoing the request —
its origin, destination, budget range and travel dates equal the
corresponding `TripDetails` fields. -/
theorem trip_plan_echoes_request (td : TripDetails) (crewResult : String)
    (plan : MainTripPlan)
    (h : (runMain td crewResult).1 = Except.ok plan) :
    plan.origin = td.from_destination ∧
    plan.destination = td.to_destination ∧
    plan.budget_range = { min := td.budget_min, max := td.budget_max } ∧
    plan.travel_dates = td.travel_dates := by
  unfold runMain at h
  cases hv : td.validate with
  | error e => rw [hv] at h; simp at h
  | ok u =>
    rw [hv] at h
    simp only [Except.ok.injEq] at h
    subst h
    exact ⟨rfl, rfl, rfl, rfl⟩

/-- C6 witness: `trip_plan_echoes_request` applied to the spec's
end-to-end scenario request (origin Hyderabad, destination Pondicherry,
budget 5000-7000): the plan's destination is "Pondicherry" and its budget
range is 5000-7000. -/
theorem trip_plan_echoes_request_witness :
    (runMain tdScenario "narrative").1 =
      Except.ok (generate_comprehensive_trip_plan_main tdScenario
        "narrative") ∧
    (generate_comprehensive_trip_plan_main tdScenario
      "narrative").destination = "Pondicherry" ∧
    (generate_comprehensive_trip_plan_main tdScenario
      "narrative").budget_range = { min := 5000, max := 7000 } := by
  have hrun : (runMain tdScenario "narrative").1 =
      Except.ok (generate_comprehensive_trip_plan_main tdScenario
        "narrative") := by rfl
  have h := trip_plan_echoes_request tdScenario "narrative" _ hrun
  exact ⟨hrun, h.2.1.trans rfl, h.2.2.1.trans rfl⟩

/-- C7 counterexample: a failed flight fetch surfaces the raw transport
exception, not a `GatewayError` carrying the provider name — the gateway
functions attach no provider information to failures. -/
theorem gateway_failure_unwrapped_cex :
    get_flight_options httpAllDown "New York, USA" "Tokyo, Japan"
      { start_date := "2024-09-15", end_date := "2024-09-25" } 2 =
      Except.error (PyErr.requestsError "ConnectionError") ∧
    isGatewayErrorResult (get_flight_options httpAllDown "New York, USA"
      "Tokyo, Japan" { start_date := "2024-09-15", end_date := "2024-09-25" }
      2) = false :=
  ⟨rfl, rfl⟩

/-- C7 amended: every gateway fetch returns the HTTP layer's outcome
unchanged — a transport failure propagates as the raw underlying
exception (never wrapped into a provider-naming `GatewayError`), and an
empty result set is returned as valid data, not raised as an error. -/
theorem gateway_propagates_raw_failures_and_returns_empty_data
    (httpDown httpEmpty : HttpLayer) (origin destination : String)
    (dates : TravelDates) (gs : Int) (br : BudgetRange)
    (ints : List String) (cause : String)
    (hf : httpDown (flightRequest origin destination dates gs) =
      Except.error (PyErr.requestsError cause))
    (hh : httpDown (hotelRequest destination dates br gs) =
      Except.error (PyErr.requestsError cause))
    (ha : httpDown (activitiesRequest destination ints) =
      Except.error (PyErr.requestsError cause))
    (hw : httpDown (weatherRequest destination dates) =
      Except.error (PyErr.requestsError cause))
    (ef : httpEmpty (flightRequest origin destination dates gs) =
      Except.ok Json.emptyResultSet)
    (eh : httpEmpty (hotelRequest destination dates br gs) =
      Except.ok Json.emptyResultSet)
    (ea : httpEmpty (activitiesRequest destination ints) =
      Except.ok Json.emptyResultSet)
    (ew : httpEmpty (weatherRequest destination dates) =
      Except.ok Json.emptyResultSet) :
    (get_flight_options httpDown origin destination dates gs =
       Except.error (PyErr.requestsError cause) ∧
     isGatewayErrorResult
       (get_flight_options httpDown origin destination dates gs) = false) ∧
    (get_hotel_options httpDown destination dates br gs =
       Except.error (PyErr.requestsError cause) ∧
     isGatewayErrorResult
       (get_hotel_options httpDown destination dates br gs) = false) ∧
    (get_local_activities httpDown destination ints =
       Except.error (PyErr.requestsError cause) ∧
     isGatewayErrorResult
       (get_local_activities httpDown destination ints) = false) ∧
    (get_weather_forecast httpDown destination dates =
       Except.error (PyErr.requestsError cause) ∧
     isGatewayErrorResult
       (get_weather_forecast httpDown destination dates) = false) ∧
    get_flight_options httpEmpty origin destination dates gs =
      Except.ok Json.emptyResultSet ∧
    get_hotel_options httpEmpty destination dates br gs =
      Except.ok Json.emptyResultSet ∧
    get_local_activities httpEmpty destination ints =
      Except.ok Json.emptyResultSet ∧
    get_weather_forecast httpEmpty destination dates =
      Except.ok Json.emptyResultSet := by
  simp [get_flight_options, get_hotel_options, get_local_activities,
    get_weather_forecast, isGatewayErrorResult, hf, hh, ha, hw, ef, eh,
    ea, ew]

/-- C7 witness: `gateway_propagates_raw_failures_and_returns_empty_data`
applied to the all-down and all-empty HTTP layers at the `test.py`
example request's field values. -/
theorem gateway_propagates_raw_failures_witness :
    (get_flight_options httpAllDown "New York, USA" "Tokyo, Japan"
       { start_date := "2024-09-15", end_date := "2024-09-25" } 2 =
       Except.error (PyErr.requestsError "ConnectionError") ∧
     isGatewayErrorResult (get_flight_options httpAllDown "New York, USA"
       "Tokyo, Japan" { start_date := "2024-09-15", end_date := "2024-09-25" }
       2) = false) ∧
    (get_hotel_options httpAllDown "Tokyo, Japan"
       { start_date := "2024-09-15", end_date := "2024-09-25" }
       { min := 3000, max := 6000 } 2 =
       Except.error (PyErr.requestsError "ConnectionError") ∧
     isGatewayErrorResult (get_hotel_options httpAllDown "Tokyo, Japan"
       { start_date := "2024-09-15", end_date := "2024-09-25" }
       { min := 3000, max := 6000 } 2) = false) ∧
    (get_local_activities httpAllDown "Tokyo, Japan"
       ["technology", "culture", "food"] =
       Except.error (PyErr.requestsError "ConnectionError") ∧
     isGatewayErrorResult (get_local_activities httpAllDown "Tokyo, Japan"
       ["technology", "culture", "food"]) = false) ∧
    (get_weather_forecast httpAllDown "Tokyo, Japan"
       { start_date := "2024-09-15", end_date := "2024-09-25" } =
       Except.error (PyErr.requestsError "ConnectionError") ∧
     isGatewayErrorResult (get_weather_forecast httpAllDown "Tokyo, Japan"
       { start_date := "2024-09-15", end_date := "2024-09-25" }) = false) ∧
    get_flight_options httpEmptyAll "New York, USA" "Tokyo, Japan"
      { start_date := "2024-09-15", end_date := "2024-09-25" } 2 =
      Except.ok Json.emptyResultSet ∧
    get_hotel_options httpEmptyAll "Tokyo, Japan"
      { start_date := "2024-09-15", end_date := "2024-09-25" }
      { min := 3000, max := 6000 } 2 = Except.ok Json.emptyResultSet ∧
    get_local_activities httpEmptyAll "Tokyo, Japan"
      ["technology", "culture", "food"] = Except.ok Json.emptyResultSet ∧
    get_weather_forecast httpEmptyAll "Tokyo, Japan"
      { start_date := "2024-09-15", end_date := "2024-09-25" } =
      Except.ok Json.emptyResultSet :=
  gateway_propagates_raw_failures_and_returns_empty_data httpAllDown
    httpEmptyAll "New York, USA" "Tokyo, Japan"
    { start_date := "2024-09-15", end_date := "2024-09-25" } 2
    { min := 3000, max := 6000 } ["technology", "culture", "food"]
    "ConnectionError" rfl rfl rfl rfl rfl rfl rfl rfl

/-- C8 counterexample: the weather query omits the travel dates entirely —
two requests differing only in travel dates produce identical weather
queries, and neither date value appears among the outgoing query
parameters, contradicting "no specified field is omitted from the
outgoing query". -/
theorem weather_query_omits_dates_cex :
    weatherRequest "Pondicherry"
      { start_date := "2024-12-22", end_date := "2024-12-25" } =
      weatherRequest "Pondicherry"
        { start_date := "2099-01-01", end_date := "2099-01-02" } ∧
    ((weatherRequest "Pondicherry"
        { start_date := "2024-12-22", end_date := "2024-12-25" }).params.map
      Prod.snd).contains "2024-12-22" = false ∧
    ((weatherRequest "Pondicherry"
        { start_date := "2024-12-22", end_date := "2024-12-25" }).params.map
      Prod.snd).contains "2024-12-25" = false := by
  refine ⟨rfl, by decide, by decide⟩

/-- C8 amended: the flight query is exactly the specified projection of
the request (origin, destination, both travel dates, party size), but the
weather query is built from the destination only — the travel dates are
accepted and ignored, so weather queries are invariant under changes to
the dates. -/
theorem gateway_query_projections (origin destination : String)
    (dates otherDates : TravelDates) (gs : Int) :
    (flightRequest origin destination dates gs).params =
      [("originLocationCode", origin),
       ("destinationLocationCode", destination),
       ("departureDate", dates.start_date),
       ("returnDate", dates.end_date),
       ("adults", toString gs)] ∧
    (weatherRequest destination dates).params =
      [("q", destination), ("units", "metric"),
       ("appid", "fb8ee50b6fbc6fc967e6211f6f5406cb")] ∧
    weatherRequest destination dates = weatherRequest destination otherDates :=
  ⟨rfl, rfl, rfl⟩

/-- C9: no run mutates the trip details — threading the planner's
`trip_details` through every step of both runs (the source never assigns
to it), the value after the run, whether it succeeded or failed, equals
the value at the start. -/
theorem trip_details_never_mutated (td : TripDetails) (http : HttpLayer)
    (crewResult : String) :
    (runTest td http).2.2 = td ∧ (runMain td crewResult).2.2 = td := by
  unfold runTest runMain
  cases td.validate <;> exact ⟨rfl, rfl⟩

/-- C10 counterexample: with `budget_min = 0` (an int) and a string
`budget_max`, `validate()` raises the descriptive "Budget must be
positive" `ValueError`, not a `TypeError` — `or` short-circuits, so the
string field is never compared and a descriptive constraint error is
reachable without both budget fields being numeric. -/
theorem string_budget_descriptive_error_cex :
    tdPyMixed.budget_max = PyVal.str "5000" ∧
    tdPyMixed.validate =
      Except.error (PyErr.valueError "Budget must be positive") :=
  ⟨rfl, rfl⟩

/-- C10 amended: a string `budget_min` makes `validate()` fail with a
`TypeError` at the positivity comparison; a string `budget_max` does so
only when `budget_min` is a positive int — when `budget_min` is an int
that is not positive, the left side of the short-circuiting `or` already
holds and the descriptive positivity `ValueError` is raised even though a
budget field is non-numeric. -/
theorem string_budget_type_error_behaviour (td : TripDetailsPy) :
    (∀ s, td.budget_min = PyVal.str s →
      td.validate = Except.error (PyErr.typeError
        "'<=' not supported between instances of 'str' and 'int'")) ∧
    (∀ n, td.budget_min = PyVal.int n → n ≤ 0 →
      td.validate =
        Except.error (PyErr.valueError "Budget must be positive")) ∧
    (∀ n s, td.budget_min = PyVal.int n → 0 < n →
      td.budget_max = PyVal.str s →
      td.validate = Except.error (PyErr.typeError
        "'<=' not supported between instances of 'str' and 'int'")) := by
  refine ⟨fun s hs => ?_, fun n hn hle => ?_, fun n s hn hpos hmax => ?_⟩
  · unfold TripDetailsPy.validate
    rw [hs]
    rfl
  · unfold TripDetailsPy.validate
    rw [hn]
    simp [pyLe, hle]
  · unfold TripDetailsPy.validate
    rw [hn, hmax]
    have hne : ¬ n ≤ 0 := by omega
    simp [pyLe, hne]

/-- C10 witness: `string_budget_type_error_behaviour` applied to the
request whose budgets are both strings, as `main.py`'s field annotations
declare them. -/
theorem string_budget_type_error_behaviour_witness :
    tdPyStringBudget.budget_min = PyVal.str "5000" ∧
    tdPyStringBudget.validate = Except.error (PyErr.typeError
      "'<=' not supported between instances of 'str' and 'int'") :=
  ⟨rfl, (string_budget_type_error_behaviour tdPyStringBudget).1 "5000" rfl⟩
